import Mathlib

/-!
Shallow embedding of the product-catalog CRUD service
(`store/usecases/product.py`, `store/core/exceptions.py`) and of the
parts of its data model that the use-case layer relies on.

Modelling conventions:
* `Decimal` prices are embedded as `Rat` (exact decimal arithmetic is a
  subring of the rationals, and the code only compares prices).
* UUIDs and UTC timestamps are embedded as `Nat`; only generation,
  equality and ordering of these values matter to the code.
* The Mongo collection is a `List Product` (one document per product);
  the narrow async API used by the code (`find_one`, `find`,
  `insert_one`, `find_one_and_update`, `delete_one`) is embedded as
  pure functions on that list, with the unique index on `name`
  enforced inside `insert_one`.
* A store round-trip can also fail for exogenous reasons (network,
  driver, …).  Where the Python code wraps its store calls in
  `try`/`except` (namely `create`), the embedded operation takes an
  extra `fault : Option PyExc` argument: `none` means the round-trip
  behaves as the pure store semantics, `some e` means the awaited call
  raised `e`.
* `ProductUsecase.update` is embedded as the source actually executes:
  its line 57 evaluates `datetime.utcnow()` on the module imported as
  `import datetime`, an attribute the module does not have, so every
  call raises `AttributeError` there — before the store round-trip —
  and, with no `try`/`except` in the function, the raw exception
  escapes the use-case.  Lines 59–68 are unreachable.
-/

set_option autoImplicit false
set_option linter.unusedVariables false

namespace Store

/-- Persisted form of a Product (`store/models/product.py` dump):
`id`, `name`, `quantity`, `price`, `status`, `created_at`, `updated_at`. -/
structure Product where
  id : Nat
  name : String
  quantity : Nat
  price : Rat
  status : Bool
  created_at : Nat
  updated_at : Nat
deriving DecidableEq, Repr

/-- Values that can appear in a Mongo `$set` document for this collection. -/
inductive Value where
  | vStr : String → Value
  | vNat : Nat → Value
  | vRat : Rat → Value
  | vBool : Bool → Value
deriving DecidableEq, Repr

/-- Python exceptions that cross the use-case boundary:
`pymongo.errors.DuplicateKeyError`, the two exceptions of
`store/core/exceptions.py`, and any other `Exception` (carrying `str(e)`). -/
inductive PyExc where
  | duplicateKey : String → PyExc
  | notFound : String → PyExc
  | insertion : String → PyExc
  | other : String → PyExc
deriving DecidableEq, Repr

/-- The `str(e)` text of an exception, as interpolated by f-strings. -/
def PyExc.text : PyExc → String
  | .duplicateKey m => m
  | .notFound m => m
  | .insertion m => m
  | .other m => m

/-- Constructor of `BaseException` in `store/core/exceptions.py`:
`if message: self.message = message` — the class default survives unless
the argument is truthy (non-`None` and non-empty). -/
def BaseExceptionInit (default : String) (message : Option String) : String :=
  match message with
  | some m => if m = "" then default else m
  | none => default

/-- Raising `NotFoundException(message=m)` (class default `"Not Found"`). -/
def NotFoundException.make (message : Option String) : PyExc :=
  .notFound (BaseExceptionInit "Not Found" message)

/-- Raising `InsertionException(message=m)` (class default `"Error inserting product"`). -/
def InsertionException.make (message : Option String) : PyExc :=
  .insertion (BaseExceptionInit "Error inserting product" message)

/-! ### Collection primitives (the narrow store API used by the use-case) -/

/-- `collection.find_one({"id": id})`: first document whose `id` field
matches, or `None`. -/
def find_one (id : Nat) (db : List Product) : Option Product :=
  db.find? (fun p => p.id == id)

/-- Price filters the use-case builds: `{}`, `{"price": {"$lt": hi}}`,
`{"price": {"$gt": lo}}`, `{"price": {"$gt": lo, "$lt": hi}}`. -/
inductive PriceFilter where
  | all : PriceFilter
  | ltOnly : Rat → PriceFilter
  | gtOnly : Rat → PriceFilter
  | between : Rat → Rat → PriceFilter
deriving DecidableEq, Repr

/-- Whether a document matches a price filter (`$gt`/`$lt` are strict). -/
def PriceFilter.matches : PriceFilter → Product → Bool
  | .all, _ => true
  | .ltOnly hi, p => p.price < hi
  | .gtOnly lo, p => lo < p.price
  | .between lo hi, p => lo < p.price && p.price < hi

/-- `collection.find(filter_query)`: every matching document, in store order. -/
def findMany (f : PriceFilter) (db : List Product) : List Product :=
  db.filter f.matches

/-- `collection.insert_one(doc)` under the unique index on `name`:
a live document with the same name makes the store raise
`DuplicateKeyError`; otherwise the document is appended. -/
def insert_one (doc : Product) (db : List Product) : Except PyExc (List Product) :=
  if db.any (fun p => p.name == doc.name) then
    .error (.duplicateKey "E11000 duplicate key error collection: products index: name_1")
  else
    .ok (db ++ [doc])

/-- Setting one field of a document, as Mongo `$set` does per key. -/
def setField (p : Product) (kv : String × Value) : Product :=
  match kv with
  | ("id", .vNat v) => { p with id := v }
  | ("name", .vStr v) => { p with name := v }
  | ("quantity", .vNat v) => { p with quantity := v }
  | ("price", .vRat v) => { p with price := v }
  | ("status", .vBool v) => { p with status := v }
  | ("created_at", .vNat v) => { p with created_at := v }
  | ("updated_at", .vNat v) => { p with updated_at := v }
  | _ => p

/-- Applying a whole `$set` document to one stored document. -/
def applySet (doc : List (String × Value)) (p : Product) : Product :=
  doc.foldl setField p

/-- `collection.find_one_and_update(filter={"id": id}, update={"$set": doc},
return_document=AFTER)`: atomically updates the first matching document and
returns it after the update, or returns `None` leaving the store unchanged. -/
def find_one_and_update (id : Nat) (doc : List (String × Value)) :
    List Product → Option Product × List Product
  | [] => (none, [])
  | p :: rest =>
    if p.id == id then
      (some (applySet doc p), applySet doc p :: rest)
    else
      let r := find_one_and_update id doc rest
      (r.1, p :: r.2)

/-- `collection.delete_one({"id": id})`: removes the first matching document
and reports `deleted_count` (`0` or `1`). -/
def delete_one (id : Nat) : List Product → Nat × List Product
  | [] => (0, [])
  | p :: rest =>
    if p.id == id then
      (1, rest)
    else
      let r := delete_one id rest
      (r.1, p :: r.2)

/-! ### Schemas -/

/-- Modelled from the spec: `store/schemas/product.py` is not under `src/`.
`ProductIn` is the caller-supplied input form `{name, quantity, price, status}`. -/
structure ProductIn where
  name : String
  quantity : Nat
  price : Rat
  status : Bool
deriving DecidableEq, Repr

/-- Modelled from the spec: `store/models/product.py` is not under `src/`.
`ProductModel(**body.model_dump())` takes the four input fields and applies
the field-level defaults: a freshly generated `id` and `created_at` /
`updated_at` both set to the current UTC time.  The generated identifier and
the clock reading are passed in as `gid` and `now`. -/
def ProductModel.make (body : ProductIn) (gid : Nat) (now : Nat) : Product :=
  { id := gid
    name := body.name
    quantity := body.quantity
    price := body.price
    status := body.status
    created_at := now
    updated_at := now }

/-- Modelled from the spec: `store/schemas/product.py` is not under `src/`.
`ProductUpdate` is the partial-update form: any subset of
`{name, quantity, price, status}`; a field that is not supplied is `None`. -/
structure ProductUpdate where
  name : Option String
  quantity : Option Nat
  price : Option Rat
  status : Option Bool
deriving DecidableEq, Repr

/-- Pydantic `body.model_dump(exclude_none=True)`: the dictionary of the
fields whose value is not `None`, in field-declaration order. -/
def ProductUpdate.dump_exclude_none (b : ProductUpdate) : List (String × Value) :=
  (match b.name with | some v => [("name", Value.vStr v)] | none => []) ++
  (match b.quantity with | some v => [("quantity", Value.vNat v)] | none => []) ++
  (match b.price with | some v => [("price", Value.vRat v)] | none => []) ++
  (match b.status with | some v => [("status", Value.vBool v)] | none => [])

/-- The exception source line 57 raises: `datetime.utcnow()` where `datetime`
is the module imported at line 1, which has no attribute `utcnow` (the
classmethod lives on the `datetime.datetime` class).  The quotation marks of
CPython's message are omitted from the embedded text. -/
def utcnowAttributeError : PyExc :=
  PyExc.other "AttributeError: module datetime has no attribute utcnow"

/-! ### The use-case operations (`store/usecases/product.py`) -/

namespace ProductUsecase

/-- `ProductUsecase.create(body)`.  `gid`/`now` are the generated id and the
clock reading consumed by the model defaults; `fault` is the exogenous
outcome of the awaited store round-trip (`create_index` + `insert_one`),
`none` meaning it follows the pure store semantics.  Both store calls sit
in one `try`: `except DuplicateKeyError` raises
`InsertionException("Product with this name already exists.")`, `except
Exception as e` raises `InsertionException(f"Failed to insert product: {e}")`;
on success the created document is returned as the output view. -/
def create (body : ProductIn) (gid : Nat) (now : Nat) (fault : Option PyExc)
    (db : List Product) : Except PyExc Product × List Product :=
  let product_model := ProductModel.make body gid now
  let attempt : Except PyExc (List Product) :=
    match fault with
    | some e => .error e
    | none => insert_one product_model db
  match attempt with
  | .error (.duplicateKey _) =>
    (.error (InsertionException.make (some "Product with this name already exists.")), db)
  | .error e =>
    (.error (InsertionException.make (some ("Failed to insert product: " ++ e.text))), db)
  | .ok db2 => (.ok product_model, db2)

/-- `ProductUsecase.get(id)`: `find_one` by `id`; `None` raises
`NotFoundException(f"Product not found with filter: {id}")`.  Read-only. -/
def get (id : Nat) (db : List Product) : Except PyExc Product :=
  match find_one id db with
  | none =>
    .error (NotFoundException.make (some ("Product not found with filter: " ++ toString id)))
  | some result => .ok result

/-- `ProductUsecase.query(min_price, max_price)`: builds `filter_query` by
the `if`/`elif` chain of the source and returns every matching document. -/
def query (min_price max_price : Option Rat) (db : List Product) : List Product :=
  let filter_query : PriceFilter :=
    match min_price, max_price with
    | some lo, some hi => .between lo hi
    | some lo, none => .gtOnly lo
    | none, some hi => .ltOnly hi
    | none, none => .all
  findMany filter_query db

/-- `ProductUsecase.update(id, body)` as the source executes: line 56 builds
`update_data = body.model_dump(exclude_none=True)` (which succeeds), then
line 57 evaluates `datetime.utcnow()` — an `AttributeError` on the module
imported as `import datetime` — so every call raises there, before the
`find_one_and_update` round-trip; with no `try`/`except` in the function the
raw exception escapes and the store is untouched.  The continuation of the
source (the single `find_one_and_update` keyed by `id` with the `$set` of
`update_data` plus `updated_at`, `return_document=AFTER`, and the
`NotFoundException` on `None` at line 66) is unreachable. -/
def update (id : Nat) (body : ProductUpdate) (db : List Product) :
    Except PyExc Product × List Product :=
  let update_data := body.dump_exclude_none
  (Except.error utcnowAttributeError, db)

/-- `ProductUsecase.delete(id)`: `find_one` existence check, `None` raising
`NotFoundException`, then `delete_one` and `deleted_count > 0`.  The two
store calls are separate round-trips, so the state seen by the check (`db1`)
and the state acted on by the deletion (`db2`) may differ under a race. -/
def delete (id : Nat) (db1 db2 : List Product) : Except PyExc Bool × List Product :=
  match find_one id db1 with
  | none =>
    (.error (NotFoundException.make (some ("Product not found with filter: " ++ toString id))),
      db2)
  | some _ =>
    let r := delete_one id db2
    (.ok (decide (r.1 > 0)), r.2)

end ProductUsecase

/-! ### Concrete data (the price fixture of the repository's tests) -/

/-- Fixture product "Laptop Basic", price 4500. -/
def pBasic : Product :=
  { id := 1, name := "Laptop Basic", quantity := 10, price := 4500,
    status := true, created_at := 100, updated_at := 100 }

/-- Fixture product "Laptop Mid", price 6500. -/
def pMid : Product :=
  { id := 2, name := "Laptop Mid", quantity := 5, price := 6500,
    status := true, created_at := 101, updated_at := 101 }

/-- Fixture product "Laptop High", price 9000. -/
def pHigh : Product :=
  { id := 3, name := "Laptop High", quantity := 3, price := 9000,
    status := true, created_at := 102, updated_at := 102 }

/-- Fixture product "Tablet", price 3000. -/
def pTablet : Product :=
  { id := 4, name := "Tablet", quantity := 20, price := 3000,
    status := false, created_at := 103, updated_at := 103 }

/-- Fixture product "Smartphone", price 7000. -/
def pSmart : Product :=
  { id := 5, name := "Smartphone", quantity := 15, price := 7000,
    status := true, created_at := 104, updated_at := 104 }

/-- The five fixture products, priced 4500, 6500, 9000, 3000, 7000. -/
def sampleDb : List Product := [pBasic, pMid, pHigh, pTablet, pSmart]

/-- A partial update supplying only a new price. -/
def upPrice : ProductUpdate :=
  { name := none, quantity := none, price := some (15/2), status := none }

/-- A fixture input body. -/
def inPhone : ProductIn :=
  { name := "Iphone 14 Pro Max", quantity := 10, price := 17/2, status := true }

/-- A partial update supplying only a new name. -/
def upName : ProductUpdate :=
  { name := some "Laptop Pro", quantity := none, price := none, status := none }

/-! ### Helper lemmas about the collection primitives -/

/-- A `find_one` comes back empty exactly when no stored document has the id. -/
theorem find_one_eq_none (id : Nat) (db : List Product) :
    find_one id db = none ↔ ∀ q ∈ db, q.id ≠ id := by
  simp [find_one, List.find?_eq_none]

/-- Under distinct ids, `delete_one` removes the match (if any) and reports
whether it removed something. -/
theorem delete_one_spec (id : Nat) (db : List Product)
    (h : (db.map Product.id).Nodup) :
    delete_one id db =
      ((if db.any (fun q => q.id == id) then 1 else 0),
        db.filter (fun q => !(q.id == id))) := by
  induction db with
  | nil => rfl
  | cons a rest ih =>
    rw [List.map_cons, List.nodup_cons] at h
    by_cases ha : (a.id == id) = true
    · have hid : a.id = id := by simpa using ha
      have hrest : ∀ q ∈ rest, (!(q.id == id)) = true := by
        intro q hq
        have : q.id ≠ id := by
          intro hbad
          exact h.1 (List.mem_map.mpr ⟨q, hq, by rw [hbad, hid]⟩)
        simpa using this
      simp [delete_one, ha, List.filter_cons, List.filter_eq_self.mpr hrest]
    · have := ih h.2
      simp [delete_one, ha, List.filter_cons, List.any_cons, this]

/-- No document survives a full deletion of an id. -/
theorem find_one_filter_out (id : Nat) (db : List Product) :
    find_one id (db.filter (fun q => !(q.id == id))) = none := by
  rw [find_one_eq_none]
  intro q hq
  have := (List.mem_filter.mp hq).2
  simpa using this

/-- Appending to a string with non-empty content stays non-empty. -/
theorem append_left_ne_empty (pre c : String) (h : pre.data ≠ []) : pre ++ c ≠ "" := by
  intro hbad
  apply h
  have hdata : (pre ++ c).data = [] := by rw [hbad]
  rw [String.data_append] at hdata
  exact (List.append_eq_nil.mp hdata).1

/-- A truthy (non-empty) message argument overrides the class default. -/
theorem BaseExceptionInit_of_ne (d m : String) (h : m ≠ "") :
    BaseExceptionInit d (some m) = m := by
  simp [BaseExceptionInit, h]

/-- The not-found message evaluates past the exception constructor (it is
never empty, so it overrides the class default). -/
theorem notFound_msg (id : Nat) :
    NotFoundException.make (some ("Product not found with filter: " ++ toString id)) =
      PyExc.notFound ("Product not found with filter: " ++ toString id) := by
  simp [NotFoundException.make, BaseExceptionInit_of_ne _ _
    (append_left_ne_empty "Product not found with filter: " (toString id) (by decide))]

/-! ### The claims -/

/-- C1: `query(minPrice?, maxPrice?)` returns exactly the stored Products
satisfying the open (strict) price filter — both bounds: `minPrice < price`
and `price < maxPrice`; only a minimum: `minPrice < price`; only a maximum:
`price < maxPrice`; neither: every stored Product — and over the fixture
priced {4500, 6500, 9000, 3000, 7000}: `query(5000, 8000)` returns exactly
the products priced 6500 and 7000, `query(min 8000)` exactly the one priced
9000, `query(max 5000)` exactly those priced 4500 and 3000, `query()` all
five; when nothing matches the result is the empty list, not an error. -/
theorem c1_query_open_price_filter :
    (∀ (db : List Product) (lo hi : Rat) (p : Product),
        (p ∈ ProductUsecase.query (some lo) (some hi) db ↔
          p ∈ db ∧ lo < p.price ∧ p.price < hi)
      ∧ (p ∈ ProductUsecase.query (some lo) none db ↔ p ∈ db ∧ lo < p.price)
      ∧ (p ∈ ProductUsecase.query none (some hi) db ↔ p ∈ db ∧ p.price < hi)
      ∧ ProductUsecase.query none none db = db)
    ∧ ProductUsecase.query (some 5000) (some 8000) sampleDb = [pMid, pSmart]
    ∧ ProductUsecase.query (some 8000) none sampleDb = [pHigh]
    ∧ ProductUsecase.query none (some 5000) sampleDb = [pBasic, pTablet]
    ∧ ProductUsecase.query none none sampleDb = sampleDb
    ∧ ProductUsecase.query (some 9500) none sampleDb = [] := by
  constructor
  · intro db lo hi p
    refine ⟨?_, ?_, ?_, ?_⟩ <;>
      simp [ProductUsecase.query, findMany, List.mem_filter, PriceFilter.matches,
        and_assoc]
  · exact ⟨by decide, by decide, by decide, by decide, by decide⟩

/-- C9: constructing `NotFoundException` / `InsertionException` with an empty
string keeps the class default message (`"Not Found"` /
`"Error inserting product"`), exactly as with no message; only a non-empty
message overrides the default, because the constructor tests truthiness. -/
theorem c9_exception_truthiness_default :
    NotFoundException.make (some "") = PyExc.notFound "Not Found"
  ∧ InsertionException.make (some "") = PyExc.insertion "Error inserting product"
  ∧ NotFoundException.make none = PyExc.notFound "Not Found"
  ∧ InsertionException.make none = PyExc.insertion "Error inserting product"
  ∧ (∀ m : String, m ≠ "" → NotFoundException.make (some m) = PyExc.notFound m)
  ∧ (∀ m : String, m ≠ "" → InsertionException.make (some m) = PyExc.insertion m) := by
  refine ⟨rfl, rfl, rfl, rfl, ?_, ?_⟩ <;> intro m hm <;>
    simp [NotFoundException.make, InsertionException.make, BaseExceptionInit_of_ne _ m hm]

/-- Witness for C9 at the concrete message "boom". -/
theorem c9_exception_truthiness_default_witness :
    NotFoundException.make (some "boom") = PyExc.notFound "boom"
  ∧ InsertionException.make (some "boom") = PyExc.insertion "boom" :=
  ⟨c9_exception_truthiness_default.2.2.2.2.1 "boom" (by decide),
   c9_exception_truthiness_default.2.2.2.2.2 "boom" (by decide)⟩

/-- C4: `create` fails only with `InsertionError`: a duplicate-name
uniqueness violation (whether detected by the store's unique index or
surfacing as a `DuplicateKeyError` from the awaited round-trip) gives
exactly "Product with this name already exists."; any other failure of the
round-trip with cause `c` gives exactly "Failed to insert product: {c}";
otherwise the insert succeeds. -/
theorem c4_create_error_mapping (body : ProductIn) (gid now : Nat)
    (fault : Option PyExc) (db : List Product) :
    (ProductUsecase.create body gid now fault db).1 =
      match fault with
      | some (PyExc.duplicateKey _) =>
        Except.error (PyExc.insertion "Product with this name already exists.")
      | some e =>
        Except.error (PyExc.insertion ("Failed to insert product: " ++ e.text))
      | none =>
        if db.any (fun p => p.name == body.name) then
          Except.error (PyExc.insertion "Product with this name already exists.")
        else
          Except.ok (ProductModel.make body gid now) := by
  have hne : ∀ c : String, ("Failed to insert product: " ++ c) ≠ "" := by
    intro c
    exact append_left_ne_empty _ c (by decide)
  cases fault with
  | some e =>
    cases e with
    | duplicateKey m => rfl
    | notFound m =>
      simp [ProductUsecase.create, InsertionException.make, PyExc.text,
        BaseExceptionInit_of_ne _ _ (hne m)]
    | insertion m =>
      simp [ProductUsecase.create, InsertionException.make, PyExc.text,
        BaseExceptionInit_of_ne _ _ (hne m)]
    | other m =>
      simp [ProductUsecase.create, InsertionException.make, PyExc.text,
        BaseExceptionInit_of_ne _ _ (hne m)]
  | none =>
    have e1 : (ProductModel.make body gid now).name = body.name := rfl
    by_cases hdup : ∃ x ∈ db, x.name = body.name
    · simp only [ProductUsecase.create, insert_one]
      simp [e1, hdup]
      rfl
    · simp [ProductUsecase.create, insert_one, e1, hdup]

/-- C2 (divergence witness): `update` on a store whose only product matches
the id never merges the body's fields and never refreshes `updated_at`: the
call dies at line 57 with the raw `AttributeError` of `datetime.utcnow()`
before the `find_one_and_update` round-trip, returning no updated view and
leaving the store untouched. -/
theorem c2_update_never_merges :
    ProductUsecase.update 1 upPrice [pBasic] =
      (Except.error utcnowAttributeError, [pBasic]) := rfl

/-- C3 (divergence witness): `update` wraps nothing in `try`/`except`, so the
exception of line 57 — raised before the store round-trip is even issued —
escapes the use-case boundary raw (a `PyExc.other`), not wrapped as the
`InsertionError("Failed to update product: …")` that the claim (and the
repository's own test
`test_usecases_update_should_raise_insertion_exception_on_db_error`)
require. -/
theorem c3_update_raw_exception_escapes :
    ProductUsecase.update 2 upPrice [pMid] =
      (Except.error utcnowAttributeError, [pMid]) := rfl

/-- C5 (divergence witness): at an id absent from the store, `get` and
`delete` do fail with the claim's `NotFoundError` and its exact message, but
`update` raises the line-57 `AttributeError` before its store lookup — the
`NotFoundException` of line 66 is unreachable — so the three operations do
not share the NotFound behaviour the claim asserts. -/
theorem c5_get_delete_not_found_update_raises :
    ProductUsecase.get 99 [pBasic] =
      Except.error (PyExc.notFound ("Product not found with filter: " ++ toString 99))
  ∧ ProductUsecase.delete 99 [pBasic] [pBasic] =
      (Except.error (PyExc.notFound ("Product not found with filter: " ++ toString 99)),
        [pBasic])
  ∧ ProductUsecase.update 99 upPrice [pBasic] =
      (Except.error utcnowAttributeError, [pBasic]) :=
  ⟨rfl, rfl, rfl⟩

/-- C6: when the existence check sees a match for `id`, `delete` removes the
record with that id present at deletion time and returns `true` exactly when
a record was actually removed (`false` when a racing delete already removed
it); a subsequent `get` of that id fails with `NotFoundError`. -/
theorem c6_delete_removes_and_reports (id : Nat) (db1 db2 : List Product) (p : Product)
    (hcheck : find_one id db1 = some p) (hids : (db2.map Product.id).Nodup) :
    ∃ removed db2next,
      ProductUsecase.delete id db1 db2 = (Except.ok removed, db2next)
      ∧ (removed = true ↔ ∃ q ∈ db2, q.id = id)
      ∧ db2next = db2.filter (fun q => !(q.id == id))
      ∧ ProductUsecase.get id db2next =
          Except.error (PyExc.notFound ("Product not found with filter: " ++ toString id)) := by
  have hrun := delete_one_spec id db2 hids
  refine ⟨decide ((if db2.any (fun q => q.id == id) then 1 else 0) > 0),
    db2.filter (fun q => !(q.id == id)), ?_, ?_, rfl, ?_⟩
  · simp only [ProductUsecase.delete, hcheck, hrun]
  · by_cases hany : ∃ q ∈ db2, q.id = id
    · have : (db2.any fun q => q.id == id) = true := by simpa using hany
      simp [this, hany]
    · have : (db2.any fun q => q.id == id) = false := by simpa using hany
      simp [this, hany]
  · simp [ProductUsecase.get, find_one_filter_out, notFound_msg]

/-- Witness for C6: deleting the only stored product. -/
theorem c6_delete_removes_and_reports_witness :
    find_one 1 [pBasic] = some pBasic ∧ ([pBasic].map Product.id).Nodup ∧
    ∃ removed db2next,
      ProductUsecase.delete 1 [pBasic] [pBasic] = (Except.ok removed, db2next)
      ∧ (removed = true ↔ ∃ q ∈ [pBasic], q.id = 1)
      ∧ db2next = [pBasic].filter (fun q => !(q.id == 1))
      ∧ ProductUsecase.get 1 db2next =
          Except.error (PyExc.notFound ("Product not found with filter: " ++ toString 1)) :=
  ⟨rfl, by decide, c6_delete_removes_and_reports 1 [pBasic] [pBasic] pBasic rfl (by decide)⟩

/-- C7: a successful `create` returns the output view echoing the input's
`name`, `quantity`, `price` (exact decimal, no rounding) and `status`, with
only `id`, `created_at` and `updated_at` generated (the fresh identifier and
the creation clock reading) rather than taken from the input. -/
theorem c7_create_echoes_input (body : ProductIn) (gid now : Nat)
    (db : List Product) (hname : ∀ q ∈ db, q.name ≠ body.name) :
    ∃ out, ProductUsecase.create body gid now none db = (Except.ok out, db ++ [out])
      ∧ out.name = body.name ∧ out.quantity = body.quantity
      ∧ out.price = body.price ∧ out.status = body.status
      ∧ out.id = gid ∧ out.created_at = now ∧ out.updated_at = now := by
  refine ⟨ProductModel.make body gid now, ?_, rfl, rfl, rfl, rfl, rfl, rfl, rfl⟩
  have hdup : ¬ ∃ x ∈ db, x.name = body.name := by
    rintro ⟨x, hx, he⟩
    exact hname x hx he
  have e1 : (ProductModel.make body gid now).name = body.name := rfl
  simp [ProductUsecase.create, insert_one, e1, hdup]

/-- Witness for C7: creating the fixture phone in an empty store. -/
theorem c7_create_echoes_input_witness :
    (∀ q ∈ ([] : List Product), q.name ≠ inPhone.name) ∧
    ∃ out, ProductUsecase.create inPhone 7 50 none [] = (Except.ok out, [] ++ [out])
      ∧ out.name = inPhone.name ∧ out.quantity = inPhone.quantity
      ∧ out.price = inPhone.price ∧ out.status = inPhone.status
      ∧ out.id = 7 ∧ out.created_at = 50 ∧ out.updated_at = 50 :=
  ⟨by simp, c7_create_echoes_input inPhone 7 50 [] (by simp)⟩

/-- C8 (divergence witness): no `update` call ever completes — here a
name-only body over a store holding the matching id — so no `$set` document
is ever assembled or written and no updated view exists for the claim's
"successful call" to range over: the record keeps its `id` and `created_at`
only because the whole operation dies at line 57 before touching the store. -/
theorem c8_update_never_completes :
    ProductUsecase.update 3 upName [pHigh] =
      (Except.error utcnowAttributeError, [pHigh]) := rfl

/-- C10 (divergence witness): line 56 does drop `None` fields — the
price-only body dumps under `exclude_none` to exactly its one provided field
— but line 57 raises before `updated_at` is added to the document or any
merge is issued, so the program never exhibits the claimed
unchanged-field behaviour of a `None` field: every `update` call fails raw. -/
theorem c10_dump_drops_none_but_update_dies :
    ProductUpdate.dump_exclude_none upPrice = [("price", Value.vRat (15/2))]
  ∧ ProductUsecase.update 4 upPrice [pTablet] =
      (Except.error utcnowAttributeError, [pTablet]) :=
  ⟨rfl, rfl⟩

end Store
